import Mathlib

set_option maxHeartbeats 1000000
set_option linter.unusedVariables false

namespace RagApp

/-- Lifecycle status of a document (src/unnamed/part_002, interface Document). -/
inductive DocStatus where
  | processing
  | ready
  | error
deriving DecidableEq, Repr

/-- A document tracked in the in-memory registry (src/unnamed/part_002, interface Document). -/
structure Document where
  id : String
  name : String
  content : String
  status : DocStatus
  timestamp : Nat
deriving DecidableEq, Repr

/-- Role of a chat message (src/unnamed/part_002, interface ChatMessage). -/
inductive Role where
  | user
  | assistant
deriving DecidableEq, Repr

/-- A conversation-log entry (src/unnamed/part_002, interface ChatMessage). The
TypeScript field `sources` is optional; an absent field is modelled as the empty list. -/
structure ChatMessage where
  id : String
  role : Role
  content : String
  sources : List String
deriving DecidableEq, Repr

/-- The React component state of App (src/App.tsx lines 29-41), restricted to the
fields the orchestrators read or write. -/
structure AppState where
  documents : List Document
  chatMessages : List ChatMessage
  isUploading : Bool
  inputMessage : String
  isAnswering : Bool
  isConfigured : Bool
  errorStatus : Option String
deriving DecidableEq, Repr

/-- The declared name and MIME type of an uploaded file. -/
structure FileInput where
  name : String
  mimeType : String
deriving DecidableEq, Repr

/-- How many times each external collaborator was invoked during one handler run.
Used to state the fail-fast guarantees of the unconfigured state. -/
structure CallCounts where
  normalizeCalls : Nat := 0
  storeCalls : Nat := 0
  searchCalls : Nat := 0
  generateCalls : Nat := 0
deriving DecidableEq, Repr

/-- Result of running one handler: the new component state plus the collaborator
invocation counts of that run. -/
structure StepResult where
  state : AppState
  calls : CallCounts
deriving DecidableEq, Repr

/-- JavaScript String.prototype.trim: drop whitespace from both ends of the
string. Defined by structural recursion over the character list. -/
def jsTrim (s : String) : String :=
  String.mk ((s.data.dropWhile Char.isWhitespace).reverse.dropWhile Char.isWhitespace).reverse

/-- Substring test on character lists, mirroring JavaScript String.prototype.includes. -/
def charsContains (pat : List Char) : List Char → Bool
  | [] => pat.isEmpty
  | c :: t => pat.isPrefixOf (c :: t) || charsContains pat t

/-- `strContains s pat` is JavaScript `s.includes(pat)`. -/
def strContains (s pat : String) : Bool :=
  charsContains pat.toList s.toList

/-- The schema-setup user message of src/App.tsx line 121. -/
def schemaSetupMessage : String :=
  "Table \x27documents\x27 missing in Supabase. Check Setup SQL."

/-- Error classification of the upload catch block (src/App.tsx lines 119-124):
`const msg = error.message || "Failed to upload."` followed by the
`includes("PGRST205") || includes("documents")` test. An absent message is
modelled as the empty string, which is exactly what the JavaScript `||`
fallback treats as falsy. -/
def classifyUploadError (rawMessage : String) : String :=
  let msg := if rawMessage = "" then "Failed to upload." else rawMessage
  if strContains msg "PGRST205" || strContains msg "documents" then schemaSetupMessage
  else msg

/-- PDF text extraction (src/App.tsx lines 63-74): starting from the empty string,
visit pages 1 .. numPages in ascending order; for page i join the text fragments
of `getPage i` with a single space and append that page text plus a newline. -/
def extractTextFromPdf (numPages : Nat) (getPage : Nat → List String) : String :=
  (List.range numPages).foldl
    (fun fullText i => fullText ++ String.intercalate " " (getPage (i + 1)) ++ "\n") ""

/-- The three extraction strategies of the dispatch in src/App.tsx lines 100-107. -/
inductive ExtractStrategy where
  | pdf
  | docx
  | plain
deriving DecidableEq, Repr

/-- Strategy dispatch (src/App.tsx lines 100-107): first match on MIME type or
filename suffix wins; anything else falls back to plain byte-to-text decoding. -/
def selectStrategy (f : FileInput) : ExtractStrategy :=
  if f.mimeType = "application/pdf" || f.name.endsWith ".pdf" then .pdf
  else if f.mimeType = "application/vnd.openxmlformats-officedocument.wordprocessingml.document"
       || f.name.endsWith ".docx" then .docx
  else .plain

/-- Provenance-tagged failure of the upload try block. `emptyContent` is the
`throw new Error("File is empty.")` site of src/App.tsx line 109; the other
constructors carry the message of the failing step (empty string models an
absent message). -/
inductive UploadError where
  | jsError (message : String)
  | emptyContent
  | normalizeError (message : String)
  | storeError (message : String)
deriving DecidableEq, Repr

/-- The `error.message` the catch block of src/App.tsx line 117 observes. -/
def UploadError.message : UploadError → String
  | .jsError m => m
  | .emptyContent => "File is empty."
  | .normalizeError m => m
  | .storeError m => m

/-- Outcomes of the awaited steps of one upload: the file read plus selected
extraction strategy (src/App.tsx lines 98-107), the Gemini cleanup call
(line 111) and the Supabase write (line 112). Each external step either
fails with a message or succeeds. -/
structure UploadOutcomes where
  readAndExtract : Except String String
  normalize : Except String String
  store : Except String Unit

/-- The try block of src/App.tsx lines 96-112 as a sequential computation:
read and extract, reject entirely-whitespace text as `emptyContent`,
normalize, store; the first failure aborts with its provenance. -/
def runUploadSteps (o : UploadOutcomes) : Except UploadError String :=
  match o.readAndExtract with
  | .error m => .error (.jsError m)
  | .ok t =>
    if jsTrim t = "" then .error .emptyContent
    else
      match o.normalize with
      | .error m => .error (.normalizeError m)
      | .ok c =>
        match o.store with
        | .error m => .error (.storeError m)
        | .ok _ => .ok c

/-- Collaborator invocation counts of the upload try block: the normalizer runs
only when extraction produced non-whitespace text, the store only when the
normalizer succeeded. -/
def uploadCallCounts (o : UploadOutcomes) : CallCounts :=
  match o.readAndExtract with
  | .error _ => {}
  | .ok t =>
    if jsTrim t = "" then {}
    else
      match o.normalize with
      | .error _ => { normalizeCalls := 1 }
      | .ok _ => { normalizeCalls := 1, storeCalls := 1 }

/-- Success patch of src/App.tsx lines 114-116: the registry entry whose id
matches the upload gets the processed content and status ready. -/
def uploadSuccessPatch (uid content : String) (d : Document) : Document :=
  if d.id = uid then { d with content := content, status := .ready } else d

/-- Failure patch of src/App.tsx lines 125-127: the registry entry whose id
matches the upload gets status error; all other fields are untouched. -/
def uploadErrorPatch (uid : String) (d : Document) : Document :=
  if d.id = uid then { d with status := .error } else d

/-- The synchronous prefix of onFileUpload (src/App.tsx lines 85-94), executed
before the first await: set isUploading, clear the error banner, and prepend a
fresh Document with status processing and empty content to the registry. -/
def onFileUploadSync (s : AppState) (f : FileInput) (fid : String) (now : Nat) : AppState :=
  { s with
    isUploading := true
    errorStatus := none
    documents :=
      { id := fid, name := f.name, content := "", status := .processing, timestamp := now }
        :: s.documents }

/-- Settling an upload (src/App.tsx lines 114-130): on success map the success
patch over the registry; on failure record the classified message in the
transient error state and map the failure patch. The finally block clears
isUploading in both cases. -/
def applyUploadResult (s : AppState) (uid : String) (r : Except UploadError String) : AppState :=
  match r with
  | .ok c =>
    { s with documents := s.documents.map (uploadSuccessPatch uid c), isUploading := false }
  | .error e =>
    { s with
      documents := s.documents.map (uploadErrorPatch uid)
      errorStatus := some (classifyUploadError e.message)
      isUploading := false }

/-- The whole onFileUpload handler (src/App.tsx lines 81-132): bail out when no
file is selected or the configured flag is unset (line 83); otherwise run the
synchronous prefix and then settle with the outcomes of the awaited steps. -/
def onFileUpload (s : AppState) (file : Option FileInput) (fid : String) (now : Nat)
    (o : UploadOutcomes) : StepResult :=
  match file with
  | none => ⟨s, {}⟩
  | some f =>
    if s.isConfigured then
      ⟨applyUploadResult (onFileUploadSync s f fid now) fid (runUploadSteps o),
       uploadCallCounts o⟩
    else ⟨s, {}⟩

/-- The generic fallback of the chat catch block (src/App.tsx line 151). -/
def chatFallbackMessage : String :=
  "Could not retrieve knowledge. Ensure your Supabase table \x27documents\x27 is created."

/-- The synthesized assistant error text of src/App.tsx line 151:
`Error: ` followed by `error.message || fallback`. -/
def synthesizedError (m : String) : String :=
  "Error: " ++ (if m = "" then chatFallbackMessage else m)

/-- Outcomes of the two awaited chat steps: the Supabase context fetch
(src/App.tsx line 144) and the Gemini answer call (line 145). -/
structure ChatOutcomes where
  search : Except String String
  generate : Except String (String × List String)

/-- The handleSendMessage handler (src/App.tsx lines 134-156). `t1` is the
`Date.now()` sample of line 138 and `t2` the sample of line 146 or 149; the
success path uses `t2 + 1` while the failure path uses `t2` unchanged. -/
def handleSendMessage (s : AppState) (t1 t2 : Nat) (o : ChatOutcomes) : StepResult :=
  if jsTrim s.inputMessage = "" ∨ s.isAnswering = true then ⟨s, {}⟩
  else
    let userMsg : ChatMessage := ⟨toString t1, .user, s.inputMessage, []⟩
    let s1 : AppState :=
      { s with
        chatMessages := s.chatMessages ++ [userMsg]
        inputMessage := ""
        isAnswering := true }
    match o.search with
    | .error m =>
      ⟨{ s1 with
          chatMessages := s1.chatMessages ++ [⟨toString t2, .assistant, synthesizedError m, []⟩]
          isAnswering := false },
       { searchCalls := 1 }⟩
    | .ok _ctx =>
      match o.generate with
      | .error m =>
        ⟨{ s1 with
            chatMessages := s1.chatMessages ++ [⟨toString t2, .assistant, synthesizedError m, []⟩]
            isAnswering := false },
         { searchCalls := 1, generateCalls := 1 }⟩
      | .ok (text, sources) =>
        ⟨{ s1 with
            chatMessages := s1.chatMessages ++ [⟨toString (t2 + 1), .assistant, text, sources⟩]
            isAnswering := false },
         { searchCalls := 1, generateCalls := 1 }⟩

/-- SupabaseService.searchKnowledgeBase (src/unnamed/part_001 lines 32-48): the
query argument is received but never used; the request selects up to ten
content rows and the result is the rows joined with a blank line (empty when
the response data is null). A store error is rethrown. -/
def searchKnowledgeBase (query : String) (data : Option (List String))
    (err : Option String) : Except String String :=
  match err with
  | some m => .error m
  | none =>
    .ok (match data with
         | none => ""
         | some rows => String.intercalate "\n\n" rows)

/-- A configured component state with the pending question `hi` and no answer in
flight, used to instantiate the handler theorems on concrete inputs. -/
def chatDemoState : AppState :=
  { documents := [], chatMessages := [], isUploading := false, inputMessage := "hi",
    isAnswering := false, isConfigured := true, errorStatus := none }

/-- The same state with the configured flag cleared. -/
def chatDemoStateUnconfigured : AppState :=
  { chatDemoState with isConfigured := false }

/-- A sample registry entry. -/
def docDemo : Document :=
  { id := "a", name := "a.txt", content := "", status := .processing, timestamp := 0 }

/-- C6: the PDF extraction strategy visits pages in ascending order from 1 to the
page count inclusive, joins the text fragments of each page with a single space,
joins the pages with a newline, and a 3-page PDF with page texts A, B, C
extracts to "A\nB\nC\n". -/
theorem pdf_extract_in_order :
    (∀ (numPages : Nat) (getPage : Nat → List String),
       extractTextFromPdf numPages getPage
         = String.join ((List.range numPages).map
             (fun i => String.intercalate " " (getPage (i + 1)) ++ "\n")))
    ∧ extractTextFromPdf 3
        (fun i => if i = 1 then ["A"] else if i = 2 then ["B"] else ["C"]) = "A\nB\nC\n" := by
  constructor
  · intro n gp
    simp only [extractTextFromPdf, String.join, List.foldl_map]
    exact List.foldl_ext _ _ _ (fun a b _ => (String.append_assoc a _ _))
  · rfl

/-- C10: the context fetch is independent of the question: for the same store
response, searchKnowledgeBase returns the same result no matter which query
string it is given. -/
theorem search_ignores_query :
    ∀ (q1 q2 : String) (data : Option (List String)) (err : Option String),
      searchKnowledgeBase q1 data err = searchKnowledgeBase q2 data err :=
  fun _ _ _ _ => rfl

/-- C8: evaluating handleSendMessage at a failing context fetch with both
Date.now() samples equal to 1000 shows the paired user and assistant messages
carry the same id "1000": the error path does not add 1 to the timestamp id,
so the two ids of one exchange are not always distinct. -/
theorem chat_error_ids_collide :
    ((handleSendMessage chatDemoState 1000 1000
        ⟨Except.error "boom", Except.ok ("", [])⟩).state.chatMessages.map
          (fun m => (m.id, m.role)))
      = [("1000", Role.user), ("1000", Role.assistant)] := by
  rfl

/-- C3 counterexample: handleSendMessage never reads the configured flag; invoked
on an unconfigured state with a non-empty question and no answer in flight, it
still appends two messages to the conversation log and attempts the context
fetch, so submitting a chat question while unconfigured is not a no-op. -/
theorem chat_unconfigured_not_noop :
    ((handleSendMessage chatDemoStateUnconfigured 5 6
        ⟨Except.error "", Except.ok ("", [])⟩).calls.searchCalls = 1)
    ∧ ((handleSendMessage chatDemoStateUnconfigured 5 6
        ⟨Except.error "", Except.ok ("", [])⟩).state.chatMessages.length = 2) := by
  constructor <;> rfl

/-- C3 (amended): when the configured flag is false, submitting an upload is a
complete no-op — the state is unchanged and no collaborator is invoked. The
chat handler itself performs no such check; chat submission is prevented only
by the disabled UI controls. -/
theorem upload_unconfigured_noop (s : AppState) (file : Option FileInput) (fid : String)
    (now : Nat) (o : UploadOutcomes) (h : s.isConfigured = false) :
    onFileUpload s file fid now o = ⟨s, {}⟩ := by
  cases file with
  | none => rfl
  | some f => simp [onFileUpload, h]

/-- Witness for upload_unconfigured_noop at a concrete unconfigured state. -/
theorem upload_unconfigured_noop_witness :
    chatDemoStateUnconfigured.isConfigured = false
    ∧ onFileUpload chatDemoStateUnconfigured (some ⟨"a.txt", "text/plain"⟩) "d1" 0
        ⟨Except.ok "hello", Except.ok "clean", Except.ok ()⟩ = ⟨chatDemoStateUnconfigured, {}⟩ :=
  ⟨rfl, upload_unconfigured_noop chatDemoStateUnconfigured (some ⟨"a.txt", "text/plain"⟩) "d1" 0
      ⟨Except.ok "hello", Except.ok "clean", Except.ok ()⟩ rfl⟩

/-- C1: for every submitted question with non-empty trimmed text, when no answer
is in flight, the handler appends exactly two entries to the conversation log —
first a user message, then one assistant message — and the answering flag is
false after the operation settles, for every outcome of the two awaited steps. -/
theorem chat_exchange_appends_two (s : AppState) (t1 t2 : Nat) (o : ChatOutcomes)
    (h1 : jsTrim s.inputMessage ≠ "") (h2 : s.isAnswering = false) :
    ∃ u a : ChatMessage,
      (handleSendMessage s t1 t2 o).state.chatMessages = s.chatMessages ++ [u, a]
      ∧ u.role = Role.user ∧ a.role = Role.assistant
      ∧ (handleSendMessage s t1 t2 o).state.isAnswering = false := by
  have hguard : ¬ (jsTrim s.inputMessage = "" ∨ s.isAnswering = true) := by
    simp [h1, h2]
  cases hs : o.search with
  | error m =>
    exact ⟨⟨toString t1, .user, s.inputMessage, []⟩,
           ⟨toString t2, .assistant, synthesizedError m, []⟩,
           by simp [handleSendMessage, hguard, hs], rfl, rfl,
           by simp [handleSendMessage, hguard, hs]⟩
  | ok ctx =>
    cases hg : o.generate with
    | error m =>
      exact ⟨⟨toString t1, .user, s.inputMessage, []⟩,
             ⟨toString t2, .assistant, synthesizedError m, []⟩,
             by simp [handleSendMessage, hguard, hs, hg], rfl, rfl,
             by simp [handleSendMessage, hguard, hs, hg]⟩
    | ok p =>
      exact ⟨⟨toString t1, .user, s.inputMessage, []⟩,
             ⟨toString (t2 + 1), .assistant, p.1, p.2⟩,
             by simp [handleSendMessage, hguard, hs, hg], rfl, rfl,
             by simp [handleSendMessage, hguard, hs, hg]⟩

/-- Witness for chat_exchange_appends_two on a concrete exchange. -/
theorem chat_exchange_appends_two_witness :
    ∃ u a : ChatMessage,
      (handleSendMessage chatDemoState 1 2
          ⟨Except.ok "ctx", Except.ok ("ans", [])⟩).state.chatMessages
        = chatDemoState.chatMessages ++ [u, a]
      ∧ u.role = Role.user ∧ a.role = Role.assistant
      ∧ (handleSendMessage chatDemoState 1 2
          ⟨Except.ok "ctx", Except.ok ("ans", [])⟩).state.isAnswering = false :=
  chat_exchange_appends_two chatDemoState 1 2 ⟨Except.ok "ctx", Except.ok ("ans", [])⟩
    (by decide) rfl

/-- C2: for every started upload (file present, configured), the inserted entry
has status processing right after the synchronous prefix, and after the upload
settles the entry with that upload's id has status ready exactly when the steps
succeeded and status error exactly when they failed — never processing. -/
theorem upload_status_settles (s : AppState) (f : FileInput) (fid : String) (now : Nat)
    (o : UploadOutcomes) (h : s.isConfigured = true) :
    (((onFileUploadSync s f fid now).documents.find? (fun d => d.id == fid)).map
        Document.status = some DocStatus.processing)
    ∧ ∃ d : Document,
        ((onFileUpload s (some f) fid now o).state.documents.find? (fun d2 => d2.id == fid))
          = some d
        ∧ (d.status = DocStatus.ready ∨ d.status = DocStatus.error)
        ∧ d.status ≠ DocStatus.processing
        ∧ (∀ c, runUploadSteps o = Except.ok c → d.status = DocStatus.ready)
        ∧ (∀ e, runUploadSteps o = Except.error e → d.status = DocStatus.error) := by
  constructor
  · simp [onFileUploadSync]
  · cases hr : runUploadSteps o with
    | ok c =>
      refine ⟨{ id := fid, name := f.name, content := c, status := DocStatus.ready,
                timestamp := now }, ?_, Or.inl rfl, by simp, fun _ _ => rfl, ?_⟩
      · simp [onFileUpload, h, applyUploadResult, hr, onFileUploadSync, uploadSuccessPatch]
      · intro e he
        exact absurd he (by simp)
    | error e =>
      refine ⟨{ id := fid, name := f.name, content := "", status := DocStatus.error,
                timestamp := now }, ?_, Or.inr rfl, by simp, ?_, fun _ _ => rfl⟩
      · simp [onFileUpload, h, applyUploadResult, hr, onFileUploadSync, uploadErrorPatch]
      · intro c hc
        exact absurd hc (by simp)

/-- Witness for upload_status_settles on a concrete successful upload. -/
theorem upload_status_settles_witness :
    ∃ d : Document,
      ((onFileUpload chatDemoState (some ⟨"a.txt", "text/plain"⟩) "d1" 0
          ⟨Except.ok "hello", Except.ok "clean", Except.ok ()⟩).state.documents.find?
        (fun d2 => d2.id == "d1")) = some d
      ∧ (d.status = DocStatus.ready ∨ d.status = DocStatus.error) := by
  obtain ⟨d, hfind, hterm, -, -, -⟩ :=
    (upload_status_settles chatDemoState ⟨"a.txt", "text/plain"⟩ "d1" 0
      ⟨Except.ok "hello", Except.ok "clean", Except.ok ()⟩ rfl).2
  exact ⟨d, hfind, hterm⟩

/-- C4: for every accepted upload, a Document with the generated id, the original
filename, empty content and status processing is prepended to the registry by
the synchronous prefix, and the whole handler factors through that prefix: the
awaited outcomes are only consumed afterwards. -/
theorem upload_inserts_processing_head (s : AppState) (f : FileInput) (fid : String)
    (now : Nat) (h : s.isConfigured = true) :
    (onFileUploadSync s f fid now).documents
      = { id := fid, name := f.name, content := "", status := DocStatus.processing,
          timestamp := now } :: s.documents
    ∧ ∀ o : UploadOutcomes,
        onFileUpload s (some f) fid now o
          = ⟨applyUploadResult (onFileUploadSync s f fid now) fid (runUploadSteps o),
             uploadCallCounts o⟩ := by
  refine ⟨rfl, fun o => ?_⟩
  simp [onFileUpload, h]

/-- Witness for upload_inserts_processing_head at a concrete state and file. -/
theorem upload_inserts_processing_head_witness :
    (onFileUploadSync chatDemoState ⟨"a.txt", "text/plain"⟩ "d1" 7).documents
      = { id := "d1", name := "a.txt", content := "", status := DocStatus.processing,
          timestamp := 7 } :: chatDemoState.documents :=
  (upload_inserts_processing_head chatDemoState ⟨"a.txt", "text/plain"⟩ "d1" 7 rfl).1

/-- C5 counterexample: an upload failure whose error message is empty (a
non-missing-table message) sets the transient error state to the fallback text
"Failed to upload.", not to the raw message. -/
theorem upload_empty_message_fallback :
    ((onFileUpload chatDemoState (some ⟨"a.txt", "text/plain"⟩) "d1" 0
        ⟨Except.ok "hello", Except.error "", Except.ok ()⟩).state.errorStatus
      = some "Failed to upload.")
    ∧ ((onFileUpload chatDemoState (some ⟨"a.txt", "text/plain"⟩) "d1" 0
        ⟨Except.ok "hello", Except.error "", Except.ok ()⟩).state.errorStatus
      ≠ some "") := by
  constructor
  · rfl
  · decide

/-- C5 (amended): when an upload fails with a non-empty error message, the
transient error state is the schema-setup message if the message mentions
PGRST205 or the literal table name, and the raw message otherwise; an empty or
absent message is first replaced by the fallback "Failed to upload.". -/
theorem upload_error_classified (s : AppState) (f : FileInput) (fid : String) (now : Nat)
    (o : UploadOutcomes) (e : UploadError) (h : s.isConfigured = true)
    (he : runUploadSteps o = Except.error e) (hm : e.message ≠ "") :
    (onFileUpload s (some f) fid now o).state.errorStatus
      = some (if strContains e.message "PGRST205" || strContains e.message "documents"
              then schemaSetupMessage else e.message) := by
  simp [onFileUpload, h, applyUploadResult, he, classifyUploadError, hm]

/-- Witness for upload_error_classified: a store failure mentioning PGRST205
surfaces the schema-setup message. -/
theorem upload_error_classified_witness :
    (onFileUpload chatDemoState (some ⟨"a.txt", "text/plain"⟩) "d1" 0
        ⟨Except.ok "hello", Except.ok "clean", Except.error "PGRST205 missing"⟩).state.errorStatus
      = some schemaSetupMessage := by
  have h := upload_error_classified chatDemoState ⟨"a.txt", "text/plain"⟩ "d1" 0
    ⟨Except.ok "hello", Except.ok "clean", Except.error "PGRST205 missing"⟩
    (UploadError.storeError "PGRST205 missing") rfl rfl (by decide)
  rw [h]
  decide

/-- C7: given that the selected extraction strategy produced text t, the upload
fails with the EmptyContent error exactly when t is entirely whitespace; in
particular an input whose extracted text has any non-whitespace character never
fails with EmptyContent. -/
theorem upload_empty_content_iff (o : UploadOutcomes) (t : String)
    (h : o.readAndExtract = Except.ok t) :
    runUploadSteps o = Except.error UploadError.emptyContent ↔ jsTrim t = "" := by
  unfold runUploadSteps
  rw [h]
  by_cases ht : jsTrim t = ""
  · simp [ht]
  · simp only [ht, if_false, iff_false]
    intro hc
    cases hn : o.normalize with
    | error m => rw [hn] at hc; exact absurd hc (by simp)
    | ok c =>
      rw [hn] at hc
      cases hst : o.store with
      | error m => rw [hst] at hc; exact absurd hc (by simp)
      | ok u => rw [hst] at hc; exact absurd hc (by simp)

/-- Witness for upload_empty_content_iff: whitespace-only extracted text fails
with EmptyContent. -/
theorem upload_empty_content_iff_witness :
    runUploadSteps ⟨Except.ok "  ", Except.ok "x", Except.ok ()⟩
      = Except.error UploadError.emptyContent :=
  (upload_empty_content_iff ⟨Except.ok "  ", Except.ok "x", Except.ok ()⟩ "  " rfl).mpr
    (by decide)

/-- C9: settling an upload maps an id-keyed patch over the registry: entries with
a different id are unchanged by either patch, and the failure patch changes only
the status field of the matching entry, preserving id, name, content (hence the
empty string) and timestamp. -/
theorem upload_patch_frame (s : AppState) (uid c : String) (e : UploadError) (d : Document)
    (h : d.id ≠ uid) :
    uploadSuccessPatch uid c d = d
    ∧ uploadErrorPatch uid d = d
    ∧ (applyUploadResult s uid (Except.ok c)).documents
        = s.documents.map (uploadSuccessPatch uid c)
    ∧ (applyUploadResult s uid (Except.error e)).documents
        = s.documents.map (uploadErrorPatch uid)
    ∧ ∀ d2 : Document,
        (uploadErrorPatch uid d2).id = d2.id
        ∧ (uploadErrorPatch uid d2).name = d2.name
        ∧ (uploadErrorPatch uid d2).content = d2.content
        ∧ (uploadErrorPatch uid d2).timestamp = d2.timestamp
        ∧ (d2.id = uid → (uploadErrorPatch uid d2).status = DocStatus.error) := by
  refine ⟨?_, ?_, rfl, rfl, ?_⟩
  · simp [uploadSuccessPatch, h]
  · simp [uploadErrorPatch, h]
  · intro d2
    by_cases h2 : d2.id = uid <;> simp [uploadErrorPatch, h2]

/-- Witness for upload_patch_frame: a registry entry with a different id is left
unchanged by both patches. -/
theorem upload_patch_frame_witness :
    uploadSuccessPatch "b" "c" docDemo = docDemo ∧ uploadErrorPatch "b" docDemo = docDemo :=
  ⟨(upload_patch_frame chatDemoState "b" "c" UploadError.emptyContent docDemo (by decide)).1,
   (upload_patch_frame chatDemoState "b" "c" UploadError.emptyContent docDemo (by decide)).2.1⟩

end RagApp
